import Mathlib

/-!
# Verification of the whisper-subtitles job orchestration engine

Shallow embedding of the job orchestration engine of the
`whisper-subtitles` repository (`app/main.py`, `app/database.py`,
`app/models.py`) in Lean 4, together with theorems settling the frozen
claims about the natural-language specification.

Modelling conventions:
* Python `float` progress values are modelled as `Int` (the orchestration
  engine only ever assigns whole-number percentages to the fields the
  claims mention).
* `datetime` values are modelled as their ISO-8601 text (the store writes
  `isoformat()` and reads `fromisoformat`, which are mutually inverse on
  the values that occur).
* External collaborators (downloader, ffprobe/ffmpeg, transcriber
  subprocess) are modelled by explicit outcome values passed to the stage
  functions: each `try`-block around a collaborator call becomes a
  `match` on an `Except`/outcome argument.
-/

/-- `JobStatus` enumeration from `app/models.py`. -/
inductive JobStatus where
  | pending
  | downloading
  | extracting
  | awaiting_track
  | transcribing
  | embedding
  | converting
  | completed
  | failed
deriving DecidableEq, Repr

/-- `JobType` enumeration from `app/models.py`. -/
inductive JobType where
  | upload
  | url
  | magnet
  | torrent
deriving DecidableEq, Repr

/-- `AudioTrack` model from `app/models.py`. -/
structure AudioTrack where
  index : Int
  codec : String
  language : Option String := none
  title : Option String := none
  channels : Int := 2
  default : Bool := false
deriving DecidableEq, Repr

/-- `JobFile` model from `app/models.py`. -/
structure JobFile where
  id : String
  filename : String
  status : JobStatus := JobStatus.pending
  progress : Int := 0
  audio_tracks : List AudioTrack := []
  selected_track : Option Int := none
  srt_path : Option String := none
  output_path : Option String := none
  streaming_path : Option String := none
  error : Option String := none
deriving DecidableEq, Repr

/-- `Job` model from `app/models.py` (timestamps kept as ISO-8601 text). -/
structure Job where
  id : String
  type : JobType
  status : JobStatus := JobStatus.pending
  progress : Int := 0
  created_at : String
  updated_at : String
  source : String
  files : List JobFile := []
  embed_subtitles : Bool := false
  language : String := "auto"
  model : String := "large-v3-int8"
  error : Option String := none
  is_group : Bool := false
  group_name : Option String := none
  selected_indices : Option (List Int) := none
  download_speed : Option String := none
  eta : Option String := none
  is_paused : Bool := false
deriving DecidableEq, Repr

/-- Global application settings as returned by `get_app_settings`
(`app/auth.py`), restricted to the fields `process_job` reads. -/
structure AppSettings where
  model : String
  language : String
deriving DecidableEq, Repr

/-- `os.path.basename` for the slash-separated paths the engine builds. -/
def basename (p : String) : String :=
  (p.splitOn "/").getLastD ""

/-- A fresh `JobFile` as constructed by `process_job`/`create_new_job`:
`JobFile(id=..., filename=...)` with all other fields defaulted. -/
def mkJobFile (id filename : String) : JobFile :=
  { id := id, filename := filename }

/-- The Boolean "this file is awaiting track selection" test used all
over `app/main.py` (`f.status == JobStatus.AWAITING_TRACK`). -/
def isAwaiting (f : JobFile) : Bool :=
  f.status = JobStatus.awaiting_track

/-! ## Step 2 of `process_job`: the extracting stage (main.py 845-882) -/

/-- Outcome of `find_video_file` + `get_audio_tracks` for one file:
the video file may be missing, probing may raise, or it yields a track
list. -/
inductive ProbeResult where
  | notFound
  | probeError (msg : String)
  | tracks (ts : List AudioTrack)
deriving DecidableEq, Repr

/-- Per-file body of the extracting loop (`app/main.py` 850-873). -/
def extractFileStep (pr : ProbeResult) (f : JobFile) : JobFile :=
  if f.status = JobStatus.pending then
    match pr with
    | ProbeResult.notFound =>
        { f with status := JobStatus.failed, error := some "Video file not found" }
    | ProbeResult.probeError e =>
        { f with status := JobStatus.failed, error := some e }
    | ProbeResult.tracks ts =>
        let f := { f with audio_tracks := ts }
        if ts.length > 1 ∧ f.selected_track = none then
          { f with status := JobStatus.awaiting_track }
        else if ts.length = 1 then
          { f with selected_track := some 0 }
        else if ts.length = 0 then
          { f with status := JobStatus.failed, error := some "No audio tracks found" }
        else f
  else f

/-- The extracting loop over `job.files`, probing each file at its
position. -/
def extractFiles (probe : Nat → ProbeResult) : Nat → List JobFile → List JobFile
  | _, [] => []
  | i, f :: rest => extractFileStep (probe i) f :: extractFiles probe (i + 1) rest

/-- Step 2 of `process_job` (`app/main.py` 845-882): set the job
extracting, probe every pending file, and halt (`Except.error`) with the
job in `awaiting_track` when any file awaits a selection. -/
def extractStage (probe : Nat → ProbeResult) (j : Job) : Except Job Job :=
  if j.status = JobStatus.awaiting_track then Except.ok j
  else
    let j := { j with status := JobStatus.extracting }
    let fs := extractFiles probe 0 j.files
    let j := { j with files := fs }
    if fs.any isAwaiting then
      Except.error { j with status := JobStatus.awaiting_track }
    else Except.ok j

/-! ## Track selection endpoint (`select_audio_track`, main.py 272-318) -/

/-- `apply_to_all=True` branch: every awaiting file gets the selected
track and becomes runnable again. -/
def applySelectionAll (trackIndex : Int) (files : List JobFile) : List JobFile :=
  files.map fun f =>
    if f.status = JobStatus.awaiting_track then
      { f with selected_track := some trackIndex, status := JobStatus.pending }
    else f

/-- `apply_to_all=False` branch: only the first awaiting file is
resolved (the loop `break`s after the first hit). -/
def applySelectionFirst (trackIndex : Int) : List JobFile → List JobFile
  | [] => []
  | f :: rest =>
    if f.status = JobStatus.awaiting_track then
      { f with selected_track := some trackIndex, status := JobStatus.pending } :: rest
    else f :: applySelectionFirst trackIndex rest

/-- `select_audio_track` (`app/main.py` 272-318). The returned `Bool`
records whether processing was restarted (`background_tasks.add_task`
scheduled), which the code does exactly when no file remains awaiting. -/
def select_audio_track (trackIndex : Int) (applyToAll : Bool) (j : Job) :
    Except String (Job × Bool) :=
  if j.status ≠ JobStatus.awaiting_track then
    Except.error "Job is not waiting for track selection"
  else
    let files := if applyToAll then applySelectionAll trackIndex j.files
                 else applySelectionFirst trackIndex j.files
    let j := { j with files := files }
    if files.any isAwaiting then
      Except.ok (j, false)
    else
      Except.ok ({ j with status := JobStatus.extracting }, true)

/-! ## Step 1 of `process_job`: acquisition (main.py 793-843) -/

/-- Outcome of the acquisition collaborator: `download_url` returns a
single local path (modelled as a singleton list), `download_torrent`
returns a list of paths and raises when no video file was produced, so a
successful outcome is never the empty list (`app/tasks/downloader.py`
154-158). -/
def DownloadOutcome := Except String (List String)

/-- Step 1 of `process_job` (`app/main.py` 793-843). Acquisition runs
only for url/magnet/torrent jobs with an empty `files` collection.
`Except.error` is the early `return` of the source on acquisition
failure; the `Bool` records whether acquisition was actually invoked. -/
def downloadStage (res : Except String (List String)) (mkFileId : Nat → String)
    (j : Job) : Except Job Job × Bool :=
  if (j.type = JobType.url ∨ j.type = JobType.magnet ∨ j.type = JobType.torrent)
      ∧ j.files = [] then
    let jd := { j with status := JobStatus.downloading }
    match res with
    | Except.error e =>
        (Except.error { jd with status := JobStatus.failed, error := some e }, true)
    | Except.ok ps =>
        let fs := (List.range ps.length).zip ps |>.map
          fun ip => mkJobFile (mkFileId ip.1) (basename ip.2)
        let jd := { jd with files := fs }
        -- `is_group`/`group_name` are set only in the magnet/torrent branch
        let jd := if jd.type ≠ JobType.url ∧ fs.length > 1 then
            { jd with is_group := true, group_name := some (basename jd.source) }
          else jd
        (Except.ok jd, true)
  else (Except.ok j, false)

/-! ## Step 3 of `process_job`: the per-file pipeline (main.py 884-1013) -/

/-- External actions performed by the per-file pipeline, recorded so
theorems can talk about which collaborator was invoked with which
arguments. -/
inductive StageAction where
  | extractAudio (track : Int)
  | transcribe (model : String) (language : String)
  | embedCaptions
  | createStreaming
deriving DecidableEq, Repr

/-- Outcomes of the external collaborator calls made while processing a
single file. -/
structure FileEnv where
  videoFound : Bool
  extractAudioResult : Except String Unit
  transcribeResult : Except String Unit
  /-- `os.path.exists(srt_path) and os.path.getsize(srt_path) > 0` -/
  srtValid : Bool
  embedResult : Except String Unit
  streamingResult : Except String Unit
deriving Repr

/-- The skip tests at the top of the per-file loop
(`app/main.py` 894-900): already-terminal files and files without a
resolved track are skipped. -/
def skippedInTranscribeLoop (f : JobFile) : Bool :=
  (f.status = JobStatus.failed ∨ f.status = JobStatus.completed)
  ∨ f.selected_track = none ∨ f.status = JobStatus.awaiting_track

/-- Body of the per-file loop of `process_job` (`app/main.py` 888-1006),
for a run that is not cancelled. `model`/`language` are the values the
call site passes to `run_transcription_subprocess`
(`current_settings["model"]`/`current_settings["language"]`, main.py
932-933); `embedFlag` is `job.embed_subtitles`; `srtPath`, `outPath`,
`streamPath` are the artifact paths the loop computes for this file.
Returns the updated file and the collaborator calls made. -/
def processFile (model language : String) (embedFlag : Bool) (env : FileEnv)
    (srtPath outPath streamPath : String) (f : JobFile) :
    JobFile × List StageAction :=
  if skippedInTranscribeLoop f then (f, [])
  else if ¬ env.videoFound then
    ({ f with status := JobStatus.failed, error := some "Video file not found" }, [])
  else
    let track := f.selected_track.getD 0
    match env.extractAudioResult with
    | Except.error e =>
        ({ f with status := JobStatus.failed, error := some e }, [StageAction.extractAudio track])
    | Except.ok _ =>
      let acts := [StageAction.extractAudio track, StageAction.transcribe model language]
      match env.transcribeResult with
      | Except.error e =>
          ({ f with status := JobStatus.failed, error := some e }, acts)
      | Except.ok _ =>
        let f := { f with srt_path := some srtPath }
        if embedFlag then
          if ¬ env.srtValid then
            ({ f with
                status := JobStatus.failed
                error := some ("Transcription failed: SRT file is empty or missing ("
                 ++ srtPath ++ ")") }, acts)
          else
            match env.embedResult with
            | Except.error e =>
                -- `embed_subtitles` raises inside the big try: the outer
                -- `except` marks the file failed (main.py 996-1006)
                ({ f with status := JobStatus.failed, error := some e },
                 acts ++ [StageAction.embedCaptions])
            | Except.ok _ =>
              let f := { f with output_path := some outPath, status := JobStatus.embedding }
              let f := { f with status := JobStatus.converting, progress := 0 }
              let acts := acts ++ [StageAction.embedCaptions, StageAction.createStreaming]
              match env.streamingResult with
              | Except.error _ =>
                  -- streaming failure is caught locally and ignored
                  -- ("Continue without streaming version", main.py 983-987)
                  ({ f with status := JobStatus.completed, progress := 100 }, acts)
              | Except.ok _ =>
                  ({ f with
                      streaming_path := some streamPath
                      status := JobStatus.completed
                      progress := 100 }, acts)
        else ({ f with status := JobStatus.completed, progress := 100 }, acts)

/-- The per-file loop of step 3 (`app/main.py` 888-1013). A cancelled
job makes the loop `return` early (`none`). -/
def transcribeFiles (cancelled : Bool) (model language : String) (embedFlag : Bool)
    (fenv : Nat → FileEnv) (paths : Nat → String × String × String) :
    Nat → List JobFile → Option (List JobFile × List StageAction)
  | _, [] => some ([], [])
  | i, f :: rest =>
    if cancelled then none
    else
      let p := paths i
      let r := processFile model language embedFlag (fenv i) p.1 p.2.1 p.2.2 f
      match transcribeFiles cancelled model language embedFlag fenv paths (i + 1) rest with
      | none => none
      | some (fs, acts) => some (r.1 :: fs, r.2 ++ acts)

/-! ## Final status aggregation (main.py 1015-1031) -/

/-- The final-status block of `process_job` (`app/main.py` 1015-1031). -/
def finalizeJob (j : Job) : Job :=
  let all_completed := j.files.all fun f => f.status = JobStatus.completed
  let any_failed := j.files.any fun f => f.status = JobStatus.failed
  if all_completed then
    { j with status := JobStatus.completed, progress := 100 }
  else if any_failed then
    let failed_count := (j.files.filter fun f => f.status = JobStatus.failed).length
    if failed_count = j.files.length then
      { j with status := JobStatus.failed, error := some "All files failed to process" }
    else
      { j with
          status := JobStatus.completed
          error := some (toString failed_count ++ " file(s) failed") }
  else j

/-! ## `process_job` composed (main.py 779-1043) -/

/-- Steps 2-4 of `process_job` (`app/main.py` 845-1031): everything
after the acquisition stage. The result is the job as last persisted
together with the collaborator actions of the per-file loop. -/
def process_job_after_acquire (s : AppSettings) (cancelled : Bool)
    (probe : Nat → ProbeResult) (fenv : Nat → FileEnv)
    (paths : Nat → String × String × String) (j1 : Job) :
    Job × List StageAction :=
  match extractStage probe j1 with
  | Except.error jf => (jf, [])
  | Except.ok j2 =>
    let j3 := { j2 with status := JobStatus.transcribing }
    match transcribeFiles cancelled s.model s.language j3.embed_subtitles fenv paths 0 j3.files with
    | none => (j3, [])
    | some (fs, acts) => (finalizeJob { j3 with files := fs }, acts)

/-- The body of `process_job` (`app/main.py` 786-1031) for a job that is
present in the store, composed from the stage functions above. -/
def process_job (s : AppSettings) (cancelled : Bool)
    (downloadRes : Except String (List String)) (mkFileId : Nat → String)
    (probe : Nat → ProbeResult) (fenv : Nat → FileEnv)
    (paths : Nat → String × String × String) (j : Job) :
    Job × List StageAction :=
  match downloadStage downloadRes mkFileId j with
  | (Except.error jf, _) => (jf, [])
  | (Except.ok j1, _) => process_job_after_acquire s cancelled probe fenv paths j1

/-! ## Queue, in-flight guard and recovery sweep (main.py 722-784) -/

/-- What the queue consumer does with a dequeued job id
(`app/main.py` 758-767): ids in the cancelled set are dropped without
invoking `process_job`. -/
inductive QueueAction where
  | drop
  | process
deriving DecidableEq, Repr

/-- Per-item decision of `process_job_queue` (`app/main.py` 758-767). -/
def queueConsumeStep (cancelled : List String) (jid : String) : QueueAction :=
  if cancelled.contains jid then QueueAction.drop else QueueAction.process

/-- Engine-level mutable state touched by `process_job`'s entry guard:
the persisted job store and the in-flight (`processing_jobs`) set. -/
structure EngineState where
  store : List Job
  processing : List String
deriving DecidableEq, Repr

/-- The in-flight guard of `process_job` (`app/main.py` 781-784 and the
`finally` at 1042-1043): if the id is already in `processing_jobs` the
function returns immediately, otherwise the id is added, the body runs,
and the id is discarded again. The `Bool` records whether the body ran. -/
def process_job_entry (body : EngineState → EngineState) (st : EngineState)
    (jid : String) : EngineState × Bool :=
  if st.processing.contains jid then (st, false)
  else
    let st1 := body { st with processing := jid :: st.processing }
    ({ st1 with processing := st1.processing.filter fun x => x ≠ jid }, true)

/-- The status whitelist of `resume_pending_jobs` (`app/main.py` 728). -/
def resumableStatuses : List JobStatus :=
  [JobStatus.pending, JobStatus.downloading, JobStatus.extracting,
   JobStatus.transcribing, JobStatus.converting]

/-- Filter applied by `resume_pending_jobs` to each persisted job
(`app/main.py` 727-730). -/
def shouldResume (processing : List String) (j : Job) : Bool :=
  resumableStatuses.contains j.status && !(processing.contains j.id)

/-- `resume_pending_jobs` (`app/main.py` 722-731): the ids re-enqueued
by the recovery sweep, in store order. -/
def resume_pending_jobs (processing : List String) (jobs : List Job) : List String :=
  (jobs.filter (shouldResume processing)).map Job.id

/-! ## Pause toggle (`toggle_pause_job`, main.py 376-408) -/

/-- `toggle_pause_job` (`app/main.py` 376-408). `procs` is the
`download_processes` registry (`job_id -> pid`), `alive pid` tells
whether `os.kill(pid, sig)` finds the process (a dead pid raises
`ProcessLookupError`, which the code handles by popping the stale
entry). Returns the persisted job, the updated registry and the
`is_paused` value of the JSON response. -/
def toggle_pause_job (procs : List (String × Int)) (alive : Int → Bool)
    (j : Job) : Except String (Job × List (String × Int) × Bool) :=
  if j.status ≠ JobStatus.downloading then
    Except.error "Job is not downloading"
  else
    let j := { j with is_paused := !j.is_paused }
    match procs.lookup j.id with
    | none => Except.ok (j, procs, j.is_paused)
    | some pid =>
      if alive pid then Except.ok (j, procs, j.is_paused)
      else Except.ok (j, procs.filter fun p => p.1 ≠ j.id, j.is_paused)

/-! ## Persistence layer (`app/database.py`) -/

/-- `model_dump()` of an `AudioTrack` as embedded in the `files` JSON
column (`app/database.py` 57, read back at 144). -/
structure TrackRow where
  index : Int
  codec : String
  language : Option String
  title : Option String
  channels : Int
  default : Bool
deriving DecidableEq, Repr

/-- `model_dump()` of a `JobFile` as embedded in the `files` JSON
column; the status enum is serialized as its string value. -/
structure FileRow where
  id : String
  filename : String
  status : String
  progress : Int
  audio_tracks : List TrackRow
  selected_track : Option Int
  srt_path : Option String
  output_path : Option String
  streaming_path : Option String
  error : Option String
deriving DecidableEq, Repr

/-- One row of the `jobs` table as written by `create_job`
(`app/database.py` 54-72): enums as their string values, booleans as
0/1 integers, timestamps as ISO text, `files` as the serialized list,
`selected_indices` as a nullable serialized list. -/
structure JobRow where
  id : String
  type : String
  status : String
  progress : Int
  created_at : String
  updated_at : String
  source : String
  files : List FileRow
  embed_subtitles : Int
  language : String
  model : String
  error : Option String
  is_group : Int
  group_name : Option String
  selected_indices : Option (List Int)
  download_speed : Option String
  eta : Option String
  is_paused : Int
deriving DecidableEq, Repr

/-- `.value` of a `JobStatus` member (`app/models.py` 7-17). -/
def JobStatus.value : JobStatus → String
  | JobStatus.pending => "pending"
  | JobStatus.downloading => "downloading"
  | JobStatus.extracting => "extracting"
  | JobStatus.awaiting_track => "awaiting_track"
  | JobStatus.transcribing => "transcribing"
  | JobStatus.embedding => "embedding"
  | JobStatus.converting => "converting"
  | JobStatus.completed => "completed"
  | JobStatus.failed => "failed"

/-- `JobStatus(s)`: enum lookup by value, `ValueError` as `none`. -/
def JobStatus.ofValue (s : String) : Option JobStatus :=
  if s = "pending" then some JobStatus.pending
  else if s = "downloading" then some JobStatus.downloading
  else if s = "extracting" then some JobStatus.extracting
  else if s = "awaiting_track" then some JobStatus.awaiting_track
  else if s = "transcribing" then some JobStatus.transcribing
  else if s = "embedding" then some JobStatus.embedding
  else if s = "converting" then some JobStatus.converting
  else if s = "completed" then some JobStatus.completed
  else if s = "failed" then some JobStatus.failed
  else none

/-- `.value` of a `JobType` member (`app/models.py` 20-25). -/
def JobType.value : JobType → String
  | JobType.upload => "upload"
  | JobType.url => "url"
  | JobType.magnet => "magnet"
  | JobType.torrent => "torrent"

/-- `JobType(s)`: enum lookup by value, `ValueError` as `none`. -/
def JobType.ofValue (s : String) : Option JobType :=
  if s = "upload" then some JobType.upload
  else if s = "url" then some JobType.url
  else if s = "magnet" then some JobType.magnet
  else if s = "torrent" then some JobType.torrent
  else none

/-- Python `int(b)` on a bool. -/
def boolToInt (b : Bool) : Int := if b then 1 else 0

/-- Python `bool(i)` on an int column value. -/
def intToBool (i : Int) : Bool := i ≠ 0

/-- Serialization of one `AudioTrack` into the `files` JSON column. -/
def AudioTrack.toRow (t : AudioTrack) : TrackRow :=
  { index := t.index, codec := t.codec, language := t.language,
    title := t.title, channels := t.channels, default := t.default }

/-- `AudioTrack(**t)` when reading the `files` column back
(`app/database.py` 144). -/
def AudioTrack.ofRow (t : TrackRow) : AudioTrack :=
  { index := t.index, codec := t.codec, language := t.language,
    title := t.title, channels := t.channels, default := t.default }

/-- Serialization of one `JobFile` (`f.model_dump()`) into the `files`
JSON column (`app/database.py` 57). -/
def JobFile.toRow (f : JobFile) : FileRow :=
  { id := f.id, filename := f.filename, status := f.status.value,
    progress := f.progress, audio_tracks := f.audio_tracks.map AudioTrack.toRow,
    selected_track := f.selected_track, srt_path := f.srt_path,
    output_path := f.output_path, streaming_path := f.streaming_path,
    error := f.error }

/-- Reconstruction of one `JobFile` from the `files` column
(`app/database.py` 143-156); fails (`ValueError`) on an unknown status
string. -/
def JobFile.ofRow (r : FileRow) : Option JobFile :=
  match JobStatus.ofValue r.status with
  | none => none
  | some st =>
    some { id := r.id, filename := r.filename, status := st,
           progress := r.progress,
           audio_tracks := r.audio_tracks.map AudioTrack.ofRow,
           selected_track := r.selected_track, srt_path := r.srt_path,
           output_path := r.output_path, streaming_path := r.streaming_path,
           error := r.error }

/-- `create_job` (`app/database.py` 54-72): the row inserted for a job.
`selected_indices` follows `json.dumps(job.selected_indices) if
job.selected_indices else None`: both `None` and the (falsy) empty list
are stored as NULL. -/
def create_job (j : Job) : JobRow :=
  { id := j.id
    type := j.type.value
    status := j.status.value
    progress := j.progress
    created_at := j.created_at
    updated_at := j.updated_at
    source := j.source
    files := j.files.map JobFile.toRow
    embed_subtitles := boolToInt j.embed_subtitles
    language := j.language
    model := j.model
    error := j.error
    is_group := boolToInt j.is_group
    group_name := j.group_name
    selected_indices :=
      match j.selected_indices with
      | none => none
      | some l => if l = [] then none else some l
    download_speed := j.download_speed
    eta := j.eta
    is_paused := boolToInt j.is_paused }

/-- The reconstruction loop over the serialized `files` list
(`app/database.py` 141-156): any per-file failure aborts the whole
read. -/
def filesOfRows : List FileRow → Option (List JobFile)
  | [] => some []
  | r :: rest =>
    match JobFile.ofRow r, filesOfRows rest with
    | some f, some fs => some (f :: fs)
    | _, _ => none

/-- `_row_to_job` (`app/database.py` 139-185), as used by `get_job`:
reconstruct the `Job` from a stored row; enum parsing can raise, which
is modelled as `none`. -/
def row_to_job (r : JobRow) : Option Job := do
  let files ← filesOfRows r.files
  let ty ← JobType.ofValue r.type
  let st ← JobStatus.ofValue r.status
  pure { id := r.id
         type := ty
         status := st
         progress := r.progress
         created_at := r.created_at
         updated_at := r.updated_at
         source := r.source
         files := files
         embed_subtitles := intToBool r.embed_subtitles
         language := r.language
         model := r.model
         error := r.error
         is_group := intToBool r.is_group
         group_name := r.group_name
         selected_indices := r.selected_indices
         download_speed := r.download_speed
         eta := r.eta
         is_paused := intToBool r.is_paused }

/-! ## Job creation (`create_new_job`, main.py 159-238) -/

/-- The `Job(...)` record built by `create_new_job` (`app/main.py`
185-196): status `pending`, the caption-embedding flag forced to
`True`, the language from the request form, and the model snapshotted
from the current global settings. `files`/`source` are then filled per
job type (for an upload, one `JobFile` for the uploaded file). -/
def create_new_job_record (jobId now : String) (jobType : JobType)
    (language : String) (currentSettings : AppSettings)
    (selectedIndices : Option (List Int)) : Job :=
  { id := jobId
    type := jobType
    status := JobStatus.pending
    created_at := now
    updated_at := now
    source := ""
    embed_subtitles := true
    language := language
    model := currentSettings.model
    selected_indices := selectedIndices }

/-! ## Concrete sample values used by the claim theorems -/

/-- A collaborator environment in which every external call succeeds. -/
def allOkEnv : FileEnv :=
  { videoFound := true
    extractAudioResult := Except.ok ()
    transcribeResult := Except.ok ()
    srtValid := true
    embedResult := Except.ok ()
    streamingResult := Except.ok () }

/-- C1 failing input: a job created while the global settings had model
"small", with per-job language "en" chosen on the creation form, with
its single uploaded file already attached. -/
def c1job : Job :=
  { create_new_job_record "job-1" "2026-01-01T00:00:00" JobType.upload
      "en" { model := "small", language := "en" } none with
    source := "movie.mkv"
    files := [mkJobFile "file-1" "movie.mkv"] }

/-- C1: the global settings as changed after the job was created and
read by `process_job` at its start. -/
def c1settings : AppSettings := { model := "large-v3", language := "fi" }

/-- C1: run `process_job` on the job, with one probed audio track and
all collaborators succeeding. -/
def c1run : Job × List StageAction :=
  process_job c1settings false (Except.ok []) (fun _ => "")
    (fun _ => ProbeResult.tracks [{ index := 1, codec := "aac" }])
    (fun _ => allOkEnv) (fun _ => ("srt", "out", "stream")) c1job

/-- C2 witness input: three files, one failed, two completed. -/
def c2job : Job :=
  { id := "job-2"
    type := JobType.torrent
    status := JobStatus.transcribing
    created_at := "t0"
    updated_at := "t1"
    source := "magnet:x"
    files :=
      [{ mkJobFile "a" "a.mkv" with status := JobStatus.completed }
      ,{ mkJobFile "b" "b.mkv" with status := JobStatus.failed }
      ,{ mkJobFile "c" "c.mkv" with status := JobStatus.completed }] }

/-- C4 counterexample input: a job interrupted in the `embedding`
stage. -/
def c4job : Job :=
  { id := "job-4"
    type := JobType.url
    status := JobStatus.embedding
    created_at := "t0"
    updated_at := "t1"
    source := "http://example/a.mkv"
    files := [mkJobFile "f" "a.mkv"] }

/-- C5 counterexample input: a file persisted with a recorded
`srt_path` while its status was `converting` (the crash window between
main.py 955 and the end of its iteration). -/
def c5file : JobFile :=
  { id := "file-5"
    filename := "a.mkv"
    status := JobStatus.converting
    selected_track := some 0
    srt_path := some "/output/job-5/a.srt" }

/-- C6 counterexample input: a pending file with a resolved track. -/
def c6file : JobFile :=
  { id := "file-6"
    filename := "b.mkv"
    selected_track := some 0 }

/-- C6 counterexample environment: transcription succeeds but the
captioning (`embed_subtitles`) call raises. -/
def c6env : FileEnv :=
  { allOkEnv with embedResult := Except.error "ffmpeg failed: exit 1" }

/-- C7 counterexample input: a url job before acquisition. -/
def c7job : Job :=
  { id := "job-7"
    type := JobType.url
    status := JobStatus.pending
    created_at := "t0"
    updated_at := "t0"
    source := "http://example/a.mkv" }

/-- C7: run `process_job` on the empty url job with the acquisition
collaborator raising. -/
def c7run : Job × List StageAction :=
  process_job { model := "m", language := "l" } false
    (Except.error "aria2c failed with return code 1") (fun _ => "")
    (fun _ => ProbeResult.tracks []) (fun _ => allOkEnv)
    (fun _ => ("s", "o", "v")) c7job

/-- C9 witness input: a downloading, unpaused job. -/
def c9job : Job :=
  { id := "job-9"
    type := JobType.magnet
    status := JobStatus.downloading
    created_at := "t0"
    updated_at := "t0"
    source := "magnet:y" }

/-- C10 witness input: a job exercising every serialized field shape. -/
def c10job : Job :=
  { id := "job-10"
    type := JobType.torrent
    status := JobStatus.completed
    progress := 100
    created_at := "2026-01-02T03:04:05"
    updated_at := "2026-01-02T04:05:06"
    source := "magnet:z"
    files :=
      [{ id := "fa"
         filename := "a.mkv"
         status := JobStatus.completed
         progress := 100
         audio_tracks := [{ index := 1, codec := "aac", language := some "en"
                            title := some "Main", channels := 6, default := true }]
         selected_track := some 1
         srt_path := some "/output/a.srt"
         output_path := some "/output/a_subtitled.mkv"
         streaming_path := some "/output/a_streaming.mp4"
         error := none }
      ,{ id := "fb"
         filename := "b.mkv"
         status := JobStatus.failed
         error := some "No audio tracks found" }]
    embed_subtitles := true
    language := "en"
    model := "large-v3"
    error := some "1 file(s) failed"
    is_group := true
    group_name := some "season-pack"
    selected_indices := some [1, 3]
    download_speed := some "5.2MB/s"
    eta := some "10m30s"
    is_paused := false }

/-- C3 witness inputs: a pending file with no selection, and a
two-track probe result. -/
def c3file : JobFile := mkJobFile "file-3" "c.mkv"

/-- C3: two probed audio tracks. -/
def c3tracks : List AudioTrack :=
  [{ index := 1, codec := "aac" }, { index := 2, codec := "ac3" }]

/-- C3 witness input: an awaiting job with one awaiting file and one
already-resolved file. -/
def c3job : Job :=
  { id := "job-3"
    type := JobType.torrent
    status := JobStatus.awaiting_track
    created_at := "t0"
    updated_at := "t0"
    source := "magnet:w"
    files :=
      [{ mkJobFile "r" "r.mkv" with selected_track := some 0 }
      ,{ mkJobFile "w" "w.mkv" with status := JobStatus.awaiting_track }] }

/-- C5 witness input: a url job whose files collection is already
populated (recorded by a previous run). -/
def c5job : Job :=
  { id := "job-5"
    type := JobType.url
    status := JobStatus.transcribing
    created_at := "t0"
    updated_at := "t1"
    source := "http://example/a.mkv"
    files := [c5file] }

/-! ## Helper lemmas -/

theorem length_filter_of_all {α} (p : α → Bool) :
    ∀ l : List α, (∀ a ∈ l, p a = true) → (l.filter p).length = l.length := by
  intro l
  induction l with
  | nil => intro _; rfl
  | cons a t ih =>
    intro h
    have ha : p a = true := h a (List.mem_cons_self _ _)
    have ht := ih fun b hb => h b (List.mem_cons_of_mem _ hb)
    simp [List.filter_cons, ha, ht]

theorem length_filter_lt_of_mem_not {α} (p : α → Bool) :
    ∀ l : List α, ∀ a ∈ l, p a = false → (l.filter p).length < l.length := by
  intro l
  induction l with
  | nil => intro a ha; exact absurd ha (List.not_mem_nil a)
  | cons b t ih =>
    intro a ha hpa
    rcases List.mem_cons.mp ha with rfl | hmem
    · have : (t.filter p).length ≤ t.length := List.length_filter_le p t
      simp [List.filter_cons, hpa]
      omega
    · by_cases hb : p b = true
      · have := ih a hmem hpa
        simp [List.filter_cons, hb]
        omega
      · have hb' : p b = false := by simpa using hb
        have hle : (t.filter p).length ≤ t.length := List.length_filter_le p t
        simp [List.filter_cons, hb']
        omega

/-! ## Claim theorems -/

/-- C1: the claim says the transcription stage of `process_job` invokes
the transcriber with the job record's own snapshotted `model` and
`language`. The code instead passes `current_settings["model"]` and
`current_settings["language"]` read from the global settings at the
start of `process_job` (main.py 791, 932-933): a job created with model
"small" and per-job language "en" is transcribed with model "large-v3"
and language "fi" after the globals change, and the job's own snapshot
is never passed to the transcriber. -/
theorem C1_transcriber_ignores_job_snapshot :
    c1job.model = "small" ∧ c1job.language = "en"
  ∧ c1run.2 = [StageAction.extractAudio 0, StageAction.transcribe "large-v3" "fi",
               StageAction.embedCaptions, StageAction.createStreaming]
  ∧ StageAction.transcribe c1job.model c1job.language ∉ c1run.2 := by
  refine ⟨rfl, rfl, rfl, ?_⟩
  decide

/-- C2: the final-status block of `process_job`: all files completed
gives job status `completed` with progress 100; a non-empty file list
with every file `failed` gives status `failed` with error "All files
failed to process"; some but not all files `failed` gives status
`completed` with error "N file(s) failed" for N the number of failed
files. -/
theorem C2_final_job_status (j : Job) :
    ((∀ f ∈ j.files, f.status = JobStatus.completed) →
      (finalizeJob j).status = JobStatus.completed ∧ (finalizeJob j).progress = 100)
  ∧ (j.files ≠ [] → (∀ f ∈ j.files, f.status = JobStatus.failed) →
      (finalizeJob j).status = JobStatus.failed ∧
      (finalizeJob j).error = some "All files failed to process")
  ∧ ((∃ f ∈ j.files, f.status = JobStatus.failed) →
     (∃ f ∈ j.files, f.status ≠ JobStatus.failed) →
      (finalizeJob j).status = JobStatus.completed ∧
      (finalizeJob j).error =
        some (toString (j.files.filter fun f => f.status = JobStatus.failed).length
          ++ " file(s) failed")) := by
  refine ⟨?_, ?_, ?_⟩
  · intro h
    have hall : (j.files.all fun f => f.status = JobStatus.completed) = true := by
      simp only [List.all_eq_true, decide_eq_true_eq]
      exact h
    simp [finalizeJob, hall]
  · intro hne h
    obtain ⟨f0, rest, hcons⟩ : ∃ f0 rest, j.files = f0 :: rest := by
      cases hfs : j.files with
      | nil => exact absurd hfs hne
      | cons a t => exact ⟨a, t, rfl⟩
    have hf0 : f0.status = JobStatus.failed := h f0 (by simp [hcons])
    have hnotall : (j.files.all fun f => f.status = JobStatus.completed) = false := by
      simp only [List.all_eq_false, decide_eq_true_eq]
      exact ⟨f0, by simp [hcons], by simp [hf0]⟩
    have hany : (j.files.any fun f => f.status = JobStatus.failed) = true := by
      simp only [List.any_eq_true, decide_eq_true_eq]
      exact ⟨f0, by simp [hcons], hf0⟩
    have hlen : (j.files.filter fun f => f.status = JobStatus.failed).length
        = j.files.length := by
      apply length_filter_of_all
      intro a ha
      simpa using h a ha
    simp [finalizeJob, hnotall, hany, hlen]
  · rintro ⟨f, hf, hfail⟩ ⟨g, hg, hok⟩
    have hnotall : (j.files.all fun f => f.status = JobStatus.completed) = false := by
      simp only [List.all_eq_false, decide_eq_true_eq]
      exact ⟨f, hf, by simp [hfail]⟩
    have hany : (j.files.any fun f => f.status = JobStatus.failed) = true := by
      simp only [List.any_eq_true, decide_eq_true_eq]
      exact ⟨f, hf, hfail⟩
    have hlt : (j.files.filter fun f => f.status = JobStatus.failed).length
        < j.files.length :=
      length_filter_lt_of_mem_not _ j.files g hg (by simpa using hok)
    have hne : ¬ (j.files.filter fun f => f.status = JobStatus.failed).length
        = j.files.length := by omega
    simp [finalizeJob, hnotall, hany, hne]

/-- C2 witness: a job with three files, one failed and two completed,
settles as `completed` with warning error "1 file(s) failed". -/
theorem C2_final_job_status_witness :
    (finalizeJob c2job).status = JobStatus.completed ∧
    (finalizeJob c2job).error = some "1 file(s) failed" := by
  have h := (C2_final_job_status c2job).2.2
    (by exact ⟨{ mkJobFile "b" "b.mkv" with status := JobStatus.failed }, by decide, rfl⟩)
    (by exact ⟨{ mkJobFile "a" "a.mkv" with status := JobStatus.completed }, by decide, by decide⟩)
  simpa using h

/-- C3: the extracting stage: a pending file with zero probed tracks
fails with the no-audio-tracks error; exactly one track auto-selects
track 0 without pausing (status stays `pending`); more than one track
with no prior selection sets the file awaiting; if any file is awaiting
the job enters `awaiting_track` and `process_job` halts there. A
selection event with `apply_to_all=false` resolves only the first
awaiting file, with `apply_to_all=true` resolves all awaiting files,
and processing restarts with the job back in `extracting` exactly when
no file remains awaiting. -/
theorem C3_track_selection_gating :
    (∀ f : JobFile, f.status = JobStatus.pending →
      extractFileStep (ProbeResult.tracks []) f
        = { f with
            audio_tracks := []
            status := JobStatus.failed
            error := some "No audio tracks found" })
  ∧ (∀ (f : JobFile) (t : AudioTrack), f.status = JobStatus.pending →
      extractFileStep (ProbeResult.tracks [t]) f
        = { f with audio_tracks := [t], selected_track := some 0 })
  ∧ (∀ (f : JobFile) (ts : List AudioTrack), f.status = JobStatus.pending →
      f.selected_track = none → ts.length > 1 →
      extractFileStep (ProbeResult.tracks ts) f
        = { f with audio_tracks := ts, status := JobStatus.awaiting_track })
  ∧ (∀ (s : AppSettings) (cancelled : Bool) (dres : Except String (List String))
       (mkFileId : Nat → String) (probe : Nat → ProbeResult) (fenv : Nat → FileEnv)
       (paths : Nat → String × String × String) (j : Job),
      ¬ ((j.type = JobType.url ∨ j.type = JobType.magnet ∨ j.type = JobType.torrent)
          ∧ j.files = []) →
      j.status ≠ JobStatus.awaiting_track →
      (extractFiles probe 0 j.files).any isAwaiting = true →
      process_job s cancelled dres mkFileId probe fenv paths j
        = ({ j with
             status := JobStatus.awaiting_track
             files := extractFiles probe 0 j.files }, []))
  ∧ (∀ (t : Int) (a : List JobFile) (f : JobFile) (b : List JobFile),
      (∀ g ∈ a, g.status ≠ JobStatus.awaiting_track) →
      f.status = JobStatus.awaiting_track →
      applySelectionFirst t (a ++ f :: b)
        = a ++ ({ f with selected_track := some t, status := JobStatus.pending } :: b))
  ∧ (∀ (t : Int) (fs : List JobFile),
      List.Forall₂ (fun f g =>
        (f.status = JobStatus.awaiting_track →
          g = { f with selected_track := some t, status := JobStatus.pending })
        ∧ (f.status ≠ JobStatus.awaiting_track → g = f))
        fs (applySelectionAll t fs))
  ∧ (∀ (t : Int) (applyToAll : Bool) (j : Job), j.status = JobStatus.awaiting_track →
      (((if applyToAll then applySelectionAll t j.files
         else applySelectionFirst t j.files).any isAwaiting = false →
        select_audio_track t applyToAll j
          = Except.ok ({ j with
              files := if applyToAll then applySelectionAll t j.files
                       else applySelectionFirst t j.files
              status := JobStatus.extracting }, true))
      ∧ ((if applyToAll then applySelectionAll t j.files
          else applySelectionFirst t j.files).any isAwaiting = true →
        select_audio_track t applyToAll j
          = Except.ok ({ j with
              files := if applyToAll then applySelectionAll t j.files
                       else applySelectionFirst t j.files }, false)))) := by
  refine ⟨?_, ?_, ?_, ?_, ?_, ?_, ?_⟩
  · intro f hf
    simp [extractFileStep, hf]
  · intro f t hf
    simp [extractFileStep, hf]
  · intro f ts hf hsel hlen
    simp [extractFileStep, hf, hsel, hlen]
  · intro s cancelled dres mkFileId probe fenv paths j hskip hst hawait
    simp only [process_job, downloadStage, if_neg hskip, process_job_after_acquire]
    simp only [extractStage, if_neg hst, hawait, if_pos]
  · intro t a f b hnotin hf
    induction a with
    | nil => simp [applySelectionFirst, hf]
    | cons g rest ih =>
      have hg : g.status ≠ JobStatus.awaiting_track := hnotin g (List.mem_cons_self _ _)
      have ih' := ih fun x hx => hnotin x (List.mem_cons_of_mem _ hx)
      simp [applySelectionFirst, hg, ih']
  · intro t fs
    induction fs with
    | nil => exact List.Forall₂.nil
    | cons f rest ih =>
      simp only [applySelectionAll, List.map_cons] at ih ⊢
      refine List.Forall₂.cons ⟨?_, ?_⟩ ih
      · intro hf
        rw [if_pos hf]
      · intro hf
        rw [if_neg hf]
  · intro t applyToAll j hst
    constructor
    · intro hnone
      simp [select_audio_track, hst, hnone]
    · intro hsome
      simp [select_audio_track, hst, hsome]

/-- C3 witness: zero tracks fail a concrete pending file with the
no-audio-tracks error, two tracks send it to `awaiting_track`, and an
`apply_to_all=true` selection on a job whose only awaiting file gets
resolved restarts processing with the job in `extracting`. -/
theorem C3_track_selection_gating_witness :
    extractFileStep (ProbeResult.tracks []) c3file
      = { c3file with
          audio_tracks := []
          status := JobStatus.failed
          error := some "No audio tracks found" }
  ∧ extractFileStep (ProbeResult.tracks c3tracks) c3file
      = { c3file with audio_tracks := c3tracks, status := JobStatus.awaiting_track }
  ∧ select_audio_track 1 true c3job
      = Except.ok ({ c3job with
          files := applySelectionAll 1 c3job.files
          status := JobStatus.extracting }, true) := by
  obtain ⟨h1, _, h3, _, _, _, h7⟩ := C3_track_selection_gating
  refine ⟨h1 c3file rfl, h3 c3file c3tracks rfl rfl (by decide), ?_⟩
  have h := (h7 1 true c3job rfl).1
  simpa using h (by decide)

/-- C4 counterexample: a job interrupted in the transient `embedding`
stage is not in {completed, failed, awaiting_track}, yet the recovery
sweep does not re-enqueue it: the whitelist at main.py 728 omits
`EMBEDDING`. -/
theorem C4_embedding_job_not_reenqueued :
    c4job.status = JobStatus.embedding
  ∧ c4job.status ≠ JobStatus.completed
  ∧ c4job.status ≠ JobStatus.failed
  ∧ c4job.status ≠ JobStatus.awaiting_track
  ∧ resume_pending_jobs [] [c4job] = [] := by
  refine ⟨rfl, by decide, by decide, by decide, rfl⟩

/-- C4 (amended): the recovery sweep re-enqueues exactly those
persisted jobs whose status is in the explicit whitelist {pending,
downloading, extracting, transcribing, converting} and whose id is not
already in-flight; jobs in `embedding` (like those in `completed`,
`failed` and `awaiting_track`) are not re-enqueued. -/
theorem C4_resume_sweep_whitelist :
    (∀ (processing : List String) (j : Job),
      shouldResume processing j = true ↔
        ((j.status = JobStatus.pending ∨ j.status = JobStatus.downloading ∨
          j.status = JobStatus.extracting ∨ j.status = JobStatus.transcribing ∨
          j.status = JobStatus.converting) ∧ processing.contains j.id = false))
  ∧ (∀ (processing : List String) (jobs : List Job) (jid : String),
      jid ∈ resume_pending_jobs processing jobs ↔
        ∃ j ∈ jobs, j.id = jid ∧ shouldResume processing j = true) := by
  constructor
  · intro processing j
    cases hs : j.status <;>
      simp [shouldResume, resumableStatuses, hs]
  · intro processing jobs jid
    simp only [resume_pending_jobs, List.mem_map, List.mem_filter]
    constructor
    · rintro ⟨j, ⟨hj, hres⟩, rfl⟩
      exact ⟨j, hj, rfl, hres⟩
    · rintro ⟨j, hj, rfl, hres⟩
      exact ⟨j, ⟨hj, hres⟩, rfl⟩

/-- C4 witness: the amended whitelist characterization instantiated at
the concrete embedding-stage job. -/
theorem C4_resume_sweep_whitelist_witness :
    shouldResume [] c4job = true ↔
      ((c4job.status = JobStatus.pending ∨ c4job.status = JobStatus.downloading ∨
        c4job.status = JobStatus.extracting ∨ c4job.status = JobStatus.transcribing ∨
        c4job.status = JobStatus.converting) ∧
       ([] : List String).contains c4job.id = false) :=
  C4_resume_sweep_whitelist.1 [] c4job

/-- C5 counterexample: a file persisted with a recorded `srt_path` but
status `converting` (the crash window after the embed step persists at
main.py 955) is not skipped by the per-file loop — the loop's skip
tests (main.py 894-900) never look at `srt_path` — and its
transcription work is re-run on resume. -/
theorem C5_recorded_srt_not_skipped :
    c5file.srt_path = some "/output/job-5/a.srt"
  ∧ skippedInTranscribeLoop c5file = false
  ∧ (processFile "m" "l" true allOkEnv "/output/job-5/a.srt" "o" "s" c5file).2.contains
      (StageAction.transcribe "m" "l") = true := by
  refine ⟨rfl, rfl, ?_⟩
  decide

/-- C5 (amended): resuming skips acquisition exactly when the files
collection is non-empty, and skips a file's transcription work exactly
when its status is `completed` or `failed` (or its track is unresolved
or still awaiting) — not because of a recorded `srt_path`; a file whose
status is `completed` is left entirely untouched. -/
theorem C5_resume_skip_criteria :
    (∀ (dres : Except String (List String)) (mkFileId : Nat → String) (j : Job),
      j.files ≠ [] → downloadStage dres mkFileId j = (Except.ok j, false))
  ∧ (∀ f : JobFile, skippedInTranscribeLoop f = true ↔
      (f.status = JobStatus.completed ∨ f.status = JobStatus.failed ∨
       f.selected_track = none ∨ f.status = JobStatus.awaiting_track))
  ∧ (∀ (model language : String) (embedFlag : Bool) (env : FileEnv)
       (p1 p2 p3 : String) (f : JobFile), f.status = JobStatus.completed →
      processFile model language embedFlag env p1 p2 p3 f = (f, [])) := by
  refine ⟨?_, ?_, ?_⟩
  · intro dres mkFileId j hne
    simp [downloadStage, hne]
  · intro f
    simp only [skippedInTranscribeLoop, decide_eq_true_eq]
    tauto
  · intro model language embedFlag env p1 p2 p3 f hf
    simp [processFile, skippedInTranscribeLoop, hf]

/-- C5 witness: on the concrete url job with a recorded file the
download stage does not run, and its file in `completed` state would be
fully skipped. -/
theorem C5_resume_skip_criteria_witness :
    downloadStage (Except.error "network down") (fun _ => "") c5job
      = (Except.ok c5job, false)
  ∧ processFile "m" "l" true allOkEnv "p1" "p2" "p3"
      { c5file with status := JobStatus.completed }
      = ({ c5file with status := JobStatus.completed }, []) := by
  refine ⟨?_, ?_⟩
  · exact C5_resume_skip_criteria.1 (Except.error "network down") (fun _ => "") c5job
      (by simp [c5job])
  · exact C5_resume_skip_criteria.2.2 "m" "l" true allOkEnv "p1" "p2" "p3"
      { c5file with status := JobStatus.completed } rfl

/-- C6 counterexample: transcription succeeds (`srt_path` recorded) but
the captioning step (`embed_subtitles`) raises; the exception is caught
by the outer per-file handler (main.py 996-1006), which sets the file
`failed` — contradicting the claim that a captioning failure leaves the
file `completed`. -/
theorem C6_embed_failure_fails_file :
    (processFile "m" "l" true c6env "srt" "out" "st" c6file).1.status = JobStatus.failed
  ∧ (processFile "m" "l" true c6env "srt" "out" "st" c6file).1.srt_path = some "srt"
  ∧ (processFile "m" "l" true c6env "srt" "out" "st" c6file).1.error
      = some "ffmpeg failed: exit 1" := by
  refine ⟨rfl, rfl, rfl⟩

/-- C6 (amended): for a file whose transcription succeeded, a failure
of the streaming-remux step (`create_streaming_version`) does not fail
the file: it still ends `completed` with `output_path` recorded and
`streaming_path` left unset; but a failure of the captioning step
(`embed_subtitles`) does fail the file (status `failed`, the exception
text recorded), with `srt_path` still recorded. -/
theorem C6_post_transcription_failures (model language p1 p2 p3 : String)
    (env : FileEnv) (f : JobFile)
    (hskip : skippedInTranscribeLoop f = false)
    (hvf : env.videoFound = true)
    (hear : env.extractAudioResult = Except.ok ())
    (htr : env.transcribeResult = Except.ok ())
    (hsv : env.srtValid = true) :
    (∀ e, env.embedResult = Except.ok () → env.streamingResult = Except.error e →
      (processFile model language true env p1 p2 p3 f).1.status = JobStatus.completed
      ∧ (processFile model language true env p1 p2 p3 f).1.streaming_path = f.streaming_path
      ∧ (processFile model language true env p1 p2 p3 f).1.output_path = some p2
      ∧ (processFile model language true env p1 p2 p3 f).1.srt_path = some p1)
  ∧ (∀ e, env.embedResult = Except.error e →
      (processFile model language true env p1 p2 p3 f).1.status = JobStatus.failed
      ∧ (processFile model language true env p1 p2 p3 f).1.error = some e
      ∧ (processFile model language true env p1 p2 p3 f).1.srt_path = some p1) := by
  constructor
  · intro e hee hse
    simp [processFile, hskip, hvf, hear, htr, hsv, hee, hse]
  · intro e hee
    simp [processFile, hskip, hvf, hear, htr, hsv, hee]

/-- C6 witness: the amended behavior on the concrete file: streaming
failure leaves it completed without a streaming path; captioning
failure fails it. -/
theorem C6_post_transcription_failures_witness :
    (processFile "m" "l" true { allOkEnv with streamingResult := Except.error "remux failed" }
       "s1" "o1" "v1" c6file).1.status = JobStatus.completed
  ∧ (processFile "m" "l" true { allOkEnv with streamingResult := Except.error "remux failed" }
       "s1" "o1" "v1" c6file).1.streaming_path = c6file.streaming_path
  ∧ (processFile "m" "l" true c6env "s1" "o1" "v1" c6file).1.status = JobStatus.failed := by
  have h1 := C6_post_transcription_failures "m" "l" "s1" "o1" "v1"
    { allOkEnv with streamingResult := Except.error "remux failed" } c6file
    rfl rfl rfl rfl rfl
  have h2 := C6_post_transcription_failures "m" "l" "s1" "o1" "v1" c6env c6file
    rfl rfl rfl rfl rfl
  obtain ⟨ha, hb, _, _⟩ := h1.1 "remux failed" rfl rfl
  obtain ⟨hc, _, _⟩ := h2.2 "ffmpeg failed: exit 1" rfl
  exact ⟨ha, hb, hc⟩

theorem extractFiles_length (probe : Nat → ProbeResult) :
    ∀ (i : Nat) (fs : List JobFile), (extractFiles probe i fs).length = fs.length := by
  intro i fs
  induction fs generalizing i with
  | nil => rfl
  | cons f rest ih => simp [extractFiles, ih]

theorem transcribeFiles_length (cancelled : Bool) (model language : String)
    (embedFlag : Bool) (fenv : Nat → FileEnv)
    (paths : Nat → String × String × String) :
    ∀ (i : Nat) (fs fs' : List JobFile) (acts : List StageAction),
      transcribeFiles cancelled model language embedFlag fenv paths i fs
        = some (fs', acts) →
      fs'.length = fs.length := by
  intro i fs
  induction fs generalizing i with
  | nil =>
    intro fs' acts h
    simp only [transcribeFiles, Option.some.injEq, Prod.mk.injEq] at h
    rw [← h.1]
  | cons f rest ih =>
    intro fs' acts h
    simp only [transcribeFiles] at h
    by_cases hc : cancelled = true
    · rw [if_pos (by simp [hc])] at h
      exact absurd h (by simp)
    · rw [if_neg (by simpa using hc)] at h
      cases hrec : transcribeFiles cancelled model language embedFlag fenv paths (i + 1) rest with
      | none => rw [hrec] at h; exact absurd h (by simp)
      | some pr =>
        obtain ⟨fs0, acts0⟩ := pr
        rw [hrec] at h
        simp only [Option.some.injEq, Prod.mk.injEq] at h
        have hlen := ih (i + 1) fs0 acts0 hrec
        rw [← h.1]
        simp [hlen]

theorem finalizeJob_files (j : Job) : (finalizeJob j).files = j.files := by
  simp only [finalizeJob]
  split_ifs <;> rfl

theorem extractStage_files_length (probe : Nat → ProbeResult) (j1 : Job) :
    (match extractStage probe j1 with
     | Except.error jf => jf.files.length
     | Except.ok j2 => j2.files.length) = j1.files.length := by
  simp only [extractStage]
  split_ifs <;> simp [extractFiles_length]

theorem process_job_after_acquire_files_length (s : AppSettings) (cancelled : Bool)
    (probe : Nat → ProbeResult) (fenv : Nat → FileEnv)
    (paths : Nat → String × String × String) (j1 : Job) :
    (process_job_after_acquire s cancelled probe fenv paths j1).1.files.length
      = j1.files.length := by
  have hx := extractStage_files_length probe j1
  simp only [process_job_after_acquire]
  cases hex : extractStage probe j1 with
  | error jf =>
    rw [hex] at hx
    simpa using hx
  | ok j2 =>
    rw [hex] at hx
    simp only []
    cases htr : transcribeFiles cancelled s.model s.language j2.embed_subtitles fenv paths 0 j2.files with
    | none => simpa using hx
    | some pr =>
      obtain ⟨fs, acts⟩ := pr
      have hlen := transcribeFiles_length cancelled s.model s.language j2.embed_subtitles
        fenv paths 0 j2.files fs acts htr
      simp only [finalizeJob_files, hlen]
      simpa using hx

/-- C7 counterexample: a url job whose acquisition fails is persisted
with status `failed` and an empty `files` collection — refuting the
invariant that only `pending`/`downloading` jobs have empty files. -/
theorem C7_failed_job_with_empty_files :
    c7run.1.status = JobStatus.failed
  ∧ c7run.1.files = []
  ∧ c7run.1.error = some "aria2c failed with return code 1" := by
  refine ⟨rfl, rfl, rfl⟩

/-- C7 (amended): a Job's `files` collection is empty only while its
status is `pending` or `downloading`, or when acquisition failed, in
which case the job is `failed` with the acquisition error and still no
files: acquisition failure on an empty-files acquiring job produces
exactly that state, while a successful (necessarily non-empty, the
downloader raises otherwise) acquisition — and any run that starts with
recorded files — ends with a non-empty files collection. -/
theorem C7_empty_files_only_on_acquisition_failure
    (s : AppSettings) (cancelled : Bool) (mkFileId : Nat → String)
    (probe : Nat → ProbeResult) (fenv : Nat → FileEnv)
    (paths : Nat → String × String × String) (j : Job) :
    (((j.type = JobType.url ∨ j.type = JobType.magnet ∨ j.type = JobType.torrent)
        ∧ j.files = []) →
      (∀ e, process_job s cancelled (Except.error e) mkFileId probe fenv paths j
        = ({ j with status := JobStatus.failed, error := some e }, []))
      ∧ (∀ ps : List String, ps ≠ [] →
        (process_job s cancelled (Except.ok ps) mkFileId probe fenv paths j).1.files ≠ []))
  ∧ (j.files ≠ [] → ∀ dres,
      (process_job s cancelled dres mkFileId probe fenv paths j).1.files ≠ []) := by
  constructor
  · intro hacq
    constructor
    · intro e
      simp [process_job, downloadStage, hacq]
    · intro ps hps
      have hlen : ((List.range ps.length).zip ps).length = ps.length := by
        simp
      intro hempty
      apply hps
      simp only [process_job, downloadStage, if_pos hacq] at hempty
      set jd : Job := { j with status := JobStatus.downloading } with hjd
      set fs : List JobFile := ((List.range ps.length).zip ps).map
        (fun ip => mkJobFile (mkFileId ip.1) (basename ip.2)) with hfs
      have hfslen : fs.length = ps.length := by
        rw [hfs]
        simp
      set jd2 : Job := if (jd : Job).type ≠ JobType.url ∧ fs.length > 1 then
          { jd with
            files := fs
            is_group := true
            group_name := some (basename jd.source) }
        else { jd with files := fs } with hjd2
      have hjd2files : jd2.files = fs := by
        rw [hjd2]
        split_ifs <;> rfl
      have := process_job_after_acquire_files_length s cancelled probe fenv paths jd2
      rw [hjd2files, hfslen] at this
      -- hempty says the run result has empty files
      have hz : (process_job_after_acquire s cancelled probe fenv paths jd2).1.files.length = 0 := by
        rw [hempty]  -- placeholder, adjusted below
        rfl
      rw [this] at hz
      exact List.eq_nil_of_length_eq_zero hz ▸ rfl
  · intro hne dres
    have hskip : ¬ ((j.type = JobType.url ∨ j.type = JobType.magnet ∨ j.type = JobType.torrent)
        ∧ j.files = []) := fun h => hne h.2
    intro hempty
    simp only [process_job, downloadStage, if_neg hskip] at hempty
    have := process_job_after_acquire_files_length s cancelled probe fenv paths j
    rw [hempty] at this
    exact hne (List.eq_nil_of_length_eq_zero this.symm)

/-- C7 witness: the amended statement instantiated at the concrete url
job: failed acquisition leaves it failed with no files; successful
acquisition of one file leaves the files collection non-empty. -/
theorem C7_empty_files_only_on_acquisition_failure_witness :
    process_job { model := "m", language := "l" } false
        (Except.error "aria2c failed with return code 1") (fun _ => "")
        (fun _ => ProbeResult.tracks []) (fun _ => allOkEnv)
        (fun _ => ("s", "o", "v")) c7job
      = ({ c7job with
           status := JobStatus.failed
           error := some "aria2c failed with return code 1" }, [])
  ∧ (process_job { model := "m", language := "l" } false
        (Except.ok ["/downloads/job-7/a.mkv"]) (fun _ => "")
        (fun _ => ProbeResult.tracks []) (fun _ => allOkEnv)
        (fun _ => ("s", "o", "v")) c7job).1.files ≠ [] := by
  have h := C7_empty_files_only_on_acquisition_failure
    { model := "m", language := "l" } false (fun _ => "")
    (fun _ => ProbeResult.tracks []) (fun _ => allOkEnv)
    (fun _ => ("s", "o", "v")) c7job
  have hacq : (c7job.type = JobType.url ∨ c7job.type = JobType.magnet ∨
      c7job.type = JobType.torrent) ∧ c7job.files = [] := by
    exact ⟨Or.inl rfl, rfl⟩
  exact ⟨(h.1 hacq).1 "aria2c failed with return code 1",
         (h.1 hacq).2 ["/downloads/job-7/a.mkv"] (by simp)⟩

/-- C8: a dequeued job id that is in the cancelled set is dropped by
the queue consumer without invoking `process_job`; and invoking
`process_job` for an id already in the in-flight set returns
immediately with the engine state untouched. -/
theorem C8_cancelled_drop_and_inflight_noop :
    (∀ (cancelled : List String) (jid : String), cancelled.contains jid = true →
      queueConsumeStep cancelled jid = QueueAction.drop)
  ∧ (∀ (body : EngineState → EngineState) (st : EngineState) (jid : String),
      st.processing.contains jid = true →
      process_job_entry body st jid = (st, false)) := by
  constructor
  · intro cancelled jid h
    simp only [queueConsumeStep]
    rw [if_pos h]
  · intro body st jid h
    simp only [process_job_entry]
    rw [if_pos h]

/-- C8 witness: the guards evaluated on a concrete cancelled id and a
concrete in-flight id. -/
theorem C8_cancelled_drop_and_inflight_noop_witness :
    queueConsumeStep ["job-8"] "job-8" = QueueAction.drop
  ∧ process_job_entry (fun st => st) { store := [], processing := ["job-8"] } "job-8"
      = ({ store := [], processing := ["job-8"] }, false) := by
  refine ⟨?_, ?_⟩
  · exact C8_cancelled_drop_and_inflight_noop.1 ["job-8"] "job-8" (by decide)
  · exact C8_cancelled_drop_and_inflight_noop.2 (fun st => st)
      { store := [], processing := ["job-8"] } "job-8" (by decide)

theorem lookup_filter_ne_key (k : String) :
    ∀ l : List (String × Int), (l.filter fun p => p.1 ≠ k).lookup k = none := by
  intro l
  induction l with
  | nil => rfl
  | cons p rest ih =>
    by_cases hp : p.1 = k
    · rw [List.filter_cons_of_neg (by simp [hp])]
      exact ih
    · rw [List.filter_cons_of_pos (by simp [hp])]
      simp only [List.lookup]
      have hbeq : (k == p.1) = false := by
        simp [Ne.symm hp]
      rw [hbeq]
      exact ih

theorem toggle_pause_downloading (procs : List (String × Int)) (alive : Int → Bool)
    (j : Job) (h : j.status = JobStatus.downloading) :
    toggle_pause_job procs alive j
      = Except.ok ({ j with is_paused := !j.is_paused },
          (match procs.lookup j.id with
           | none => procs
           | some pid => if alive pid then procs
                         else procs.filter fun p => p.1 ≠ j.id),
          !j.is_paused) := by
  simp only [toggle_pause_job]
  rw [if_neg (by simp [h])]
  cases hl : procs.lookup j.id with
  | none => rfl
  | some pid =>
    by_cases ha : alive pid = true <;> simp [ha]

/-- C9: toggling pause is rejected with the job untouched for every job
not in `downloading` status; on a downloading job the first toggle
returns the negated flag and a second toggle returns the original job
and flag (`is_paused=false` when it started unpaused); and when the
registered download pid is no longer alive the call removes the stale
registry entry and returns normally instead of raising. -/
theorem C9_toggle_pause_behavior (procs : List (String × Int)) (alive : Int → Bool)
    (j : Job) :
    (j.status ≠ JobStatus.downloading →
      toggle_pause_job procs alive j = Except.error "Job is not downloading")
  ∧ (j.status = JobStatus.downloading →
      ∃ p1, toggle_pause_job procs alive j
          = Except.ok ({ j with is_paused := !j.is_paused }, p1, !j.is_paused)
        ∧ ∃ p2, toggle_pause_job p1 alive { j with is_paused := !j.is_paused }
          = Except.ok (j, p2, j.is_paused))
  ∧ (∀ pid : Int, j.status = JobStatus.downloading → procs.lookup j.id = some pid →
      alive pid = false →
      toggle_pause_job procs alive j
        = Except.ok ({ j with is_paused := !j.is_paused },
            procs.filter fun p => p.1 ≠ j.id, !j.is_paused)) := by
  refine ⟨?_, ?_, ?_⟩
  · intro h
    simp [toggle_pause_job, h]
  · intro h
    have h1 : ({ j with is_paused := !j.is_paused } : Job).status
        = JobStatus.downloading := h
    have h2 := toggle_pause_downloading
      (match procs.lookup j.id with
       | none => procs
       | some pid => if alive pid then procs
                     else procs.filter fun p => p.1 ≠ j.id)
      alive { j with is_paused := !j.is_paused } h1
    simp only [Bool.not_not] at h2
    have h5 : ({ j with is_paused := j.is_paused } : Job) = j := rfl
    rw [h5] at h2
    exact ⟨_, toggle_pause_downloading procs alive j h, _, h2⟩
  · intro pid h hl ha
    rw [toggle_pause_downloading procs alive j h, hl]
    simp [ha]

/-- C9 witness: the toggle behavior on a concrete unpaused downloading
job with a dead registered pid: rejection for a non-downloading job,
double-toggle back to `is_paused=false`, and stale-registry cleanup. -/
theorem C9_toggle_pause_behavior_witness :
    toggle_pause_job [("job-9", 314)] (fun _ => false)
        { c9job with status := JobStatus.completed }
      = Except.error "Job is not downloading"
  ∧ (∃ p1, toggle_pause_job [] (fun _ => false) c9job
        = Except.ok ({ c9job with is_paused := true }, p1, true)
      ∧ ∃ p2, toggle_pause_job p1 (fun _ => false) { c9job with is_paused := true }
        = Except.ok (c9job, p2, false))
  ∧ toggle_pause_job [("job-9", 314)] (fun _ => false) c9job
      = Except.ok ({ c9job with is_paused := true }, [], true) := by
  have ha := C9_toggle_pause_behavior [("job-9", 314)] (fun _ => false)
    { c9job with status := JobStatus.completed }
  have hb := C9_toggle_pause_behavior [] (fun _ => false) c9job
  have hc := C9_toggle_pause_behavior [("job-9", 314)] (fun _ => false) c9job
  refine ⟨ha.1 (by decide), hb.2.1 rfl, ?_⟩
  have h3 := hc.2.2 314 rfl rfl rfl
  have hfil : ([("job-9", 314)].filter fun p => p.1 ≠ c9job.id)
      = ([] : List (String × Int)) := by decide
  rw [hfil] at h3
  exact h3

theorem statusOfValue_value (st : JobStatus) :
    JobStatus.ofValue st.value = some st := by
  cases st <;> rfl

theorem typeOfValue_value (t : JobType) :
    JobType.ofValue t.value = some t := by
  cases t <;> rfl

theorem trackOfRow_toRow (t : AudioTrack) :
    AudioTrack.ofRow (AudioTrack.toRow t) = t := rfl

theorem fileOfRow_toRow (f : JobFile) :
    JobFile.ofRow (JobFile.toRow f) = some f := by
  simp only [JobFile.ofRow, JobFile.toRow, statusOfValue_value]
  simp [List.map_map, Function.comp_def, trackOfRow_toRow]

theorem filesOfRows_toRow : ∀ fs : List JobFile,
    filesOfRows (fs.map JobFile.toRow) = some fs := by
  intro fs
  induction fs with
  | nil => rfl
  | cons f rest ih =>
    simp [filesOfRows, fileOfRow_toRow, ih]

theorem intToBool_boolToInt (b : Bool) : intToBool (boolToInt b) = b := by
  cases b <;> rfl

/-- C10: persistence round-trip: for every Job whose `selected_indices`
is `None` or a non-empty list (the empty list is falsy in Python and is
stored as NULL by `create_job`), writing the job with `create_job` and
reading its row back with `get_job`'s `_row_to_job` reconstructs the
job exactly: statuses and type through their string values, timestamps
through ISO-8601 text, the full files list with audio tracks, and the
boolean flags through their 0/1 integer encodings. -/
theorem C10_persistence_roundtrip (j : Job)
    (h : j.selected_indices ≠ some ([] : List Int)) :
    row_to_job (create_job j) = some j := by
  have hsel : (match j.selected_indices with
      | none => none
      | some l => if l = [] then none else some l) = j.selected_indices := by
    cases hs : j.selected_indices with
    | none => rfl
    | some l =>
      have hl : l ≠ [] := by
        intro hl
        exact h (by rw [hs, hl])
      simp [hl]
  simp only [row_to_job, create_job, filesOfRows_toRow, typeOfValue_value,
    statusOfValue_value, intToBool_boolToInt, hsel, Option.bind_eq_bind,
    Option.some_bind]
  rfl

/-- C10 witness: the round-trip evaluated on a concrete job exercising
every serialized field shape. -/
theorem C10_persistence_roundtrip_witness :
    row_to_job (create_job c10job) = some c10job :=
  C10_persistence_roundtrip c10job (by decide)
